import Mathlib

/-!
Shallow embedding of the `self-drive` traffic simulation
(`main.py`, `car.py`, `traffic_control.py`, `environment.py`).

Numbers are modelled as rationals (the Python code uses double-precision
floats; the float literals appearing in the source, such as 0.1 and 0.5,
are read as the rationals they denote).  The transcendental library
functions `math.cos`, `math.sin`, `math.sqrt` and
`math.degrees(math.atan2 ..)` have no rational realisation, so the code
is parametrised by a `MathOracle` bundling those four functions; theorems
quantify over the oracle, adding only the hypotheses about it that the
real functions satisfy (for example nonnegativity of `sqrt`).
`cosD`/`sinD` stand for the composite `cos (radians -)` / `sin (radians -)`
applied to an angle in degrees, and `atan2D y x` for
`degrees (atan2 y x)`, exactly as the Python code composes them.
-/

attribute [local semireducible] Rat.add Rat.sub Rat.mul Rat.inv

/-- Python `%` on floats with a positive modulus: result in `[0, b)`. -/
def qmod (a b : ℚ) : ℚ := a - b * (⌊a / b⌋ : ℤ)

/-- Python `int(-)` / C-style float-to-int conversion: truncation toward 0. -/
def truncQ (q : ℚ) : ℤ := if 0 ≤ q then ⌊q⌋ else -⌊-q⌋

/-- The four `math`-library functions the simulation uses, as an oracle
(see the module docstring). -/
structure MathOracle where
  cosD : ℚ → ℚ
  sinD : ℚ → ℚ
  sqrtQ : ℚ → ℚ
  atan2D : ℚ → ℚ → ℚ

/-- A pygame `Rect`: integer left/top corner, width and height. -/
structure Rect where
  left : ℤ
  top : ℤ
  w : ℤ
  h : ℤ
deriving DecidableEq

/-- pygame `Rect.collidepoint`: the point is converted to integers
(truncation toward zero, as pygame's C conversion does) and compared
half-open — points on the right or bottom edge are outside. -/
def Rect.collidepoint (r : Rect) (x y : ℚ) : Bool :=
  let xi := truncQ x
  let yi := truncQ y
  decide (r.left ≤ xi ∧ xi < r.left + r.w ∧ r.top ≤ yi ∧ yi < r.top + r.h)

/-- `environment.py`: the window dimensions passed to `Environment.__init__`
(`main.py` uses 1000 × 800). -/
structure Environment where
  WIDTH : ℤ
  HEIGHT : ℤ
deriving DecidableEq

/-- `environment.py` `init_layout`: `self.road_width = 60`. -/
def roadWidth : ℤ := 60

/-- `environment.py` `init_layout`: the horizontal road rectangle. -/
def Environment.horizontal_road (e : Environment) : Rect :=
  ⟨0, e.HEIGHT / 2 - roadWidth / 2, e.WIDTH, roadWidth⟩

/-- `environment.py` `init_layout`: the vertical road rectangle. -/
def Environment.vertical_road (e : Environment) : Rect :=
  ⟨e.WIDTH / 2 - roadWidth / 2, 0, roadWidth, e.HEIGHT⟩

/-- `environment.py` `_is_on_road`: point on either road rectangle. -/
def Environment.isOnRoad (e : Environment) (x y : ℚ) : Bool :=
  e.horizontal_road.collidepoint x y || e.vertical_road.collidepoint x y

/-- `environment.py` `is_colliding_with_wall` (the `size` argument is
ignored by the source: "Simple check if the car's center is on a road"). -/
def Environment.is_colliding_with_wall (e : Environment) (x y : ℚ) : Bool :=
  ! e.isOnRoad x y

/-- `environment.py` `get_nearest_intersection`: `(WIDTH // 2, HEIGHT // 2)`. -/
def Environment.intersection (e : Environment) : ℚ × ℚ :=
  ((e.WIDTH / 2 : ℤ), (e.HEIGHT / 2 : ℤ))

/-- `environment.py` `init_layout`: the four exit points
`(x, y)` (road_width // 4 = 15). -/
def Environment.exit_points (e : Environment) : List (ℚ × ℚ) :=
  [((e.WIDTH - 10 : ℤ), (e.HEIGHT / 2 - roadWidth / 4 : ℤ)),
   ((10 : ℤ), (e.HEIGHT / 2 + roadWidth / 4 : ℤ)),
   ((e.WIDTH / 2 + roadWidth / 4 : ℤ), (10 : ℤ)),
   ((e.WIDTH / 2 - roadWidth / 4 : ℤ), (e.HEIGHT - 10 : ℤ))]

/-- `environment.py` `get_wall_distance`: ray-cast with step 2 from 0 up to
(excluding) `int(max_distance)`; the first sampled point off the road gives
its offset, otherwise `max_distance` is returned.  `List.range' 0 n 2`
is exactly Python's `range(0, int(max_distance), 2)`. -/
def Environment.get_wall_distance (O : MathOracle) (e : Environment)
    (x y angle maxd : ℚ) : ℚ :=
  let steps := ((truncQ maxd).toNat + 1) / 2
  match (List.range' 0 steps 2).find?
      (fun (i : ℕ) => ! e.isOnRoad (x + (i : ℚ) * O.cosD angle)
        (y + (i : ℚ) * O.sinD angle)) with
  | some i => (i : ℚ)
  | none => maxd

/-- The environment constructed by `main.py`: `Environment(1000, 800)`. -/
def env1000 : Environment := ⟨1000, 800⟩

/-!  ## Signal controller (`traffic_control.py`)  -/

/-- The state of `TrafficControl`.  The three per-lane statistics lists of
length 4 (indexed 0 = N, 1 = S, 2 = E, 3 = W) become functions `Fin 4 → ℚ`.
`current_phase` is `Fin 4` because the only writes are the initial `0` and
the result of `torch.multinomial` over 4 probabilities.  Wall-clock
`time.time()` values are rationals. -/
structure TrafficControl where
  intersection_pos : ℚ × ℚ
  current_phase : Fin 4
  traffic_lights : List (ℚ × ℚ × ℚ)
  last_phase_change : ℚ
  min_phase_duration : ℚ
  cars_per_lane : Fin 4 → ℚ
  avg_speed_per_lane : Fin 4 → ℚ
  wait_time_per_lane : Fin 4 → ℚ

/-- `TrafficControl.__init__` (with construction time `t0` standing for the
`time.time()` call): phase 0, `min_phase_duration = 5.0`, all statistics
lists `[0, 0, 0, 0]`, four light positions from `road_width = 60`
(`road_width // 3 = 20`, `road_width // 2 = 30`). -/
def TrafficControl.init (e : Environment) (t0 : ℚ) : TrafficControl :=
  let ix : ℤ := e.WIDTH / 2
  let iy : ℤ := e.HEIGHT / 2
  { intersection_pos := ((ix : ℚ), (iy : ℚ))
    current_phase := 0
    traffic_lights :=
      [((ix + roadWidth / 3 : ℤ), (iy - roadWidth / 2 : ℤ), 0),
       ((ix - roadWidth / 3 : ℤ), (iy + roadWidth / 2 : ℤ), 180),
       ((ix + roadWidth / 2 : ℤ), (iy - roadWidth / 3 : ℤ), 90),
       ((ix - roadWidth / 2 : ℤ), (iy + roadWidth / 3 : ℤ), 270)]
    last_phase_change := t0
    min_phase_duration := 5
    cars_per_lane := fun _ => 0
    avg_speed_per_lane := fun _ => 0
    wait_time_per_lane := fun _ => 0 }

/-- One `+= 0.1` wait-time accrual on lane `i`. -/
def addWait (w : Fin 4 → ℚ) (i : Fin 4) : Fin 4 → ℚ :=
  Function.update w i (w i + 1/10)

/-- `TrafficControl.update` lines 52–75, the rate-limited phase decision:
if at least `min_phase_duration` has elapsed since `last_phase_change`,
build the 12-element state list (per lane: count / 10, average speed,
wait / 30), query the policy (`brain` stands for
`TrafficControllerBrain.get_action`, a categorical sample, hence an
arbitrary function of the state list), and commit only if the returned
phase differs — then also record the new change timestamp and reset the
wait times of the lanes just given green. -/
def TrafficControl.phaseStep (tc : TrafficControl) (t : ℚ)
    (brain : List ℚ → Fin 4) : TrafficControl :=
  if tc.min_phase_duration ≤ t - tc.last_phase_change then
    let st := ((List.finRange 4).map (fun i =>
      [tc.cars_per_lane i / 10, tc.avg_speed_per_lane i,
       tc.wait_time_per_lane i / 30])).flatten
    let new_phase := brain st
    if new_phase ≠ tc.current_phase then
      let w :=
        if new_phase = 0 then
          Function.update (Function.update tc.wait_time_per_lane 0 0) 1 0
        else if new_phase = 1 then
          Function.update (Function.update tc.wait_time_per_lane 2 0) 3 0
        else tc.wait_time_per_lane
      { tc with current_phase := new_phase, last_phase_change := t,
                wait_time_per_lane := w }
    else tc
  else tc

/-- `TrafficControl.update` lines 77–83, wait-time accrual: lanes facing a
red light under the (possibly just-changed) phase gain 0.1 each. -/
def TrafficControl.accrueWait (tc1 : TrafficControl) : TrafficControl :=
  let w1 :=
    if tc1.current_phase = 1 ∨ tc1.current_phase = 2 ∨ tc1.current_phase = 3
    then addWait (addWait tc1.wait_time_per_lane 0) 1
    else tc1.wait_time_per_lane
  let w2 :=
    if tc1.current_phase = 0 ∨ tc1.current_phase = 2 ∨ tc1.current_phase = 3
    then addWait (addWait w1 2) 3
    else w1
  { tc1 with wait_time_per_lane := w2 }

/-- `TrafficControl.update`: the phase decision followed by wait accrual,
in source order. -/
def TrafficControl.update (tc : TrafficControl) (t : ℚ)
    (brain : List ℚ → Fin 4) : TrafficControl :=
  (tc.phaseStep t brain).accrueWait

/-- `TrafficControl.should_stop(x, y, angle)`: proximity radius 100, lane
orientation from `|cos(radians(angle))| < 0.5`, approach test on the raw
(unnormalised) angle, then the phase comparison. -/
def TrafficControl.should_stop (O : MathOracle) (tc : TrafficControl)
    (x y angle : ℚ) : Bool :=
  let dx := tc.intersection_pos.1 - x
  let dy := tc.intersection_pos.2 - y
  let distance := O.sqrtQ (dx ^ 2 + dy ^ 2)
  if 100 < distance then false
  else
    let is_north_south := |O.cosD angle| < 1/2
    let approaching :=
      (angle < 180 ∧ 0 < dy) ∨ (180 < angle ∧ dy < 0) ∨
      (90 < angle ∧ angle < 270 ∧ 0 < dx) ∨
      ((angle < 90 ∨ 270 < angle) ∧ dx < 0)
    if ¬ approaching then false
    else if is_north_south then decide (tc.current_phase = 1)
    else decide (tc.current_phase = 0)


/-!  ## Vehicle agent (`car.py`)  -/

/-- The mutable state of a `Car`.  `width = 10`, `max_speed = 5`,
`sensor_range = 150`, `max_stuck_time = 120` and
`position_check_interval = 10` are the same for every car (set verbatim in
`Car.__init__`), so they are kept as the constants below rather than
fields.  The color, the brain object and the sensor-line visualisation
cache are rendering-only and omitted. -/
structure CarState where
  x : ℚ
  y : ℚ
  angle : ℚ
  speed : ℚ
  acceleration : ℚ
  steering : ℚ
  destination : ℚ × ℚ
  reached_destination : Bool
  crashed : Bool
  stuck_counter : ℕ
  last_position : ℚ × ℚ
  frames_since_position_check : ℕ
deriving DecidableEq

/-- `Car.__init__` constant `self.max_speed = 5`. -/
def maxSpeed : ℚ := 5

/-- `Car.__init__` constant `self.sensor_range = 150`. -/
def sensorRange : ℚ := 150

/-- `Car.__init__`, after the random (or default) pose and destination have
been chosen: speed 0, both status flags `False`, stuck counters zeroed,
`last_position` the spawn position. -/
def Car.init (x y angle : ℚ) (dest : ℚ × ℚ) : CarState :=
  { x := x, y := y, angle := angle, speed := 0, acceleration := 0,
    steering := 0, destination := dest, reached_destination := false,
    crashed := false, stuck_counter := 0, last_position := (x, y),
    frames_since_position_check := 0 }

/-- `Car._get_distance_to_car`: the other car's distance if it lies within
±15° of the sensor ray's absolute angle and within `sensor_range`,
otherwise `sensor_range`. -/
def Car.carDistance (O : MathOracle) (x y sensor_angle : ℚ)
    (c : CarState) : ℚ :=
  let dx := c.x - x
  let dy := c.y - y
  let distance := O.sqrtQ (dx ^ 2 + dy ^ 2)
  let angle_to_car := O.atan2D dy dx
  let angle_diff := |qmod (angle_to_car - sensor_angle + 180) 360 - 180|
  if angle_diff ≤ 15 ∧ distance ≤ sensorRange then distance else sensorRange

/-- One iteration of the `Car._get_sensor_data` loop: the minimum of
`sensor_range`, the wall ray-cast, and each other car's
`_get_distance_to_car` result, normalised by `sensor_range`.  The caller
passes the other cars with the agent itself removed (the source skips
`other_car is not self` by object identity). -/
def Car.sensorReading (O : MathOracle) (e : Environment)
    (others : List CarState) (x y angle offset : ℚ) : ℚ :=
  let sensor_angle := angle + offset
  let wall := e.get_wall_distance O x y sensor_angle sensorRange
  let m := others.foldl
    (fun acc c => min acc (Car.carDistance O x y sensor_angle c))
    (min sensorRange wall)
  m / sensorRange

/-- `Car._get_sensor_data`'s five relative sensor angles. -/
def sensorOffsets : List ℚ := [-90, -45, 0, 45, 90]

/-- `Car._get_sensor_data`: the five normalised readings. -/
def Car.sensorData (O : MathOracle) (e : Environment)
    (others : List CarState) (x y angle : ℚ) : List ℚ :=
  sensorOffsets.map (Car.sensorReading O e others x y angle)

/-- `Car._get_angle_to_destination`: `degrees(atan2(dy, dx))` minus the
heading, wrapped into [-180, 180) by `(… + 180) % 360 - 180`. -/
def Car.angleToDestination (O : MathOracle) (s : CarState) : ℚ :=
  let dx := s.destination.1 - s.x
  let dy := s.destination.2 - s.y
  let angle_to_dest := O.atan2D dy dx
  qmod (angle_to_dest - s.angle + 180) 360 - 180

/-- `Car._get_distance_to_nearest_signal`: minimum distance over all signal
positions, capped at and divided by `sensor_range`; `sensor_range`
(unnormalised!) if there are no signals.  The source folds `min` starting
from `float('inf')`; starting from the head's distance yields the same
minimum. -/
def Car.distanceToNearestSignal (O : MathOracle) (tc : TrafficControl)
    (x y : ℚ) : ℚ :=
  match tc.traffic_lights with
  | [] => sensorRange
  | l :: ls =>
    let d := fun (p : ℚ × ℚ × ℚ) =>
      O.sqrtQ ((p.1 - x) ^ 2 + (p.2.1 - y) ^ 2)
    let m := (l :: ls).foldl (fun acc p => min acc (d p)) (d l)
    min m sensorRange / sensorRange

/-- `Car.update` lines 108–110: `speed += acceleration * 0.1` then clamp to
`[-max_speed/2, max_speed]` — the clamping half. -/
def clampSpeed (v : ℚ) : ℚ := max (-maxSpeed / 2) (min maxSpeed v)

/-- `Car.update` lines 112–114, the minimum-motion floor: if `|speed| < 0.5`
snap it to `0.5` when `speed >= 0`, else to `-0.5`. -/
def snapSpeed (v : ℚ) : ℚ :=
  if |v| < 1/2 then (if 0 ≤ v then 1/2 else -(1/2)) else v

/-- `Car.update` lines 66–84, the stuck detector: every
`position_check_interval = 10` ticks, compare displacement with 2; more
than `max_stuck_time = 120` consecutive slow samples force
`speed = max_speed * 0.5` and reset the counter. -/
def Car.stuckStep (O : MathOracle) (s : CarState) : CarState :=
  let fspc := s.frames_since_position_check + 1
  if 10 ≤ fspc then
    let dm := O.sqrtQ ((s.x - s.last_position.1) ^ 2 +
      (s.y - s.last_position.2) ^ 2)
    let sc := if dm < 2 then s.stuck_counter + 1 else 0
    let s1 := { s with frames_since_position_check := 0, stuck_counter := sc,
                       last_position := (s.x, s.y) }
    if 120 < sc then { s1 with speed := maxSpeed * (1/2), stuck_counter := 0 }
    else s1
  else { s with frames_since_position_check := fspc }

/-- `Car.update` lines 66–121 (everything before the collision check):
stuck detector, sensing, the policy query (`cb` stands for
`CarBrain.get_action`), the acceleration/steering commands with the
forward bias `+ 0.1` and steering gain `* 5`, speed clamp and
minimum-motion floor, heading update scaled by `speed / max_speed`, and
the Euler position step. -/
def Car.integrate (O : MathOracle) (cb : List ℚ → ℚ × ℚ) (e : Environment)
    (tc : TrafficControl) (others : List CarState) (s : CarState) : CarState :=
  let s0 := Car.stuckStep O s
  let sensors := Car.sensorData O e others s0.x s0.y s0.angle
  let angle_to_destination := Car.angleToDestination O s0
  let distance_to_signal := Car.distanceToNearestSignal O tc s0.x s0.y
  let st := sensors ++
    [distance_to_signal, s0.speed / maxSpeed, angle_to_destination / 180]
  let ac := cb st
  let acceleration := ac.1 + 1/10
  let steering := ac.2 * 5
  let v1 := snapSpeed (clampSpeed (s0.speed + acceleration * (1/10)))
  let angle1 := s0.angle + steering * (v1 / maxSpeed)
  { s0 with x := s0.x + v1 * O.cosD angle1, y := s0.y + v1 * O.sinD angle1,
            angle := angle1, speed := v1, acceleration := acceleration,
            steering := steering }

/-- `Car._check_collision`: off the drivable surface, or closer to some
other active car than the mean of the two widths (both widths are 10). -/
def Car.checkCollision (O : MathOracle) (e : Environment)
    (others : List CarState) (s : CarState) : Bool :=
  e.is_colliding_with_wall s.x s.y ||
  others.any (fun c =>
    O.sqrtQ ((c.x - s.x) ^ 2 + (c.y - s.y) ^ 2) < ((10 : ℚ) + 10) / 2)

/-- `Car._check_destination`: straight-line distance to the destination
below the arrival radius 50. -/
def Car.checkDestination (O : MathOracle) (s : CarState) : Bool :=
  let dx := s.destination.1 - s.x
  let dy := s.destination.2 - s.y
  O.sqrtQ (dx ^ 2 + dy ^ 2) < 50

/-- `Car._should_stop_for_signal` together with the module-level helper
`angle_between_0_180` (which, despite its name, reduces the angle modulo
360): proximity radius 80, orientation from the raw heading's cosine,
approach test on the heading reduced mod 360, then the phase comparison. -/
def Car.shouldStopForSignal (O : MathOracle) (e : Environment)
    (phase : Fin 4) (x y angle : ℚ) : Bool :=
  let dx := e.intersection.1 - x
  let dy := e.intersection.2 - y
  let distance := O.sqrtQ (dx ^ 2 + dy ^ 2)
  if 80 < distance then false
  else
    let is_north_south := |O.cosD angle| < 1/2
    let a := qmod angle 360
    let approaching :=
      (a < 180 ∧ 0 < dy) ∨ (180 < a ∧ dy < 0) ∨
      (90 < a ∧ a < 270 ∧ 0 < dx) ∨
      ((a < 90 ∨ 270 < a) ∧ dx < 0)
    if ¬ approaching then false
    else if is_north_south then decide (phase = 1)
    else decide (phase = 0)

/-- `Car.update` lines 134–136, signal compliance: if
`_should_stop_for_signal()` (using the agent's just-updated position and
heading), `speed = max(0.5, speed - 0.5)`. -/
def Car.signalStep (O : MathOracle) (e : Environment) (phase : Fin 4)
    (s2 : CarState) : CarState :=
  if Car.shouldStopForSignal O e phase s2.x s2.y s2.angle then
    { s2 with speed := max (1/2) (s2.speed - 1/2) }
  else s2

/-- `Car.update`: early return for terminal agents, then the integration
steps, the collision check (crash: zero speed, stop), the arrival check
(arrive: zero speed), and finally signal compliance. -/
def Car.update (O : MathOracle) (cb : List ℚ → ℚ × ℚ) (e : Environment)
    (tc : TrafficControl) (others : List CarState) (s : CarState) : CarState :=
  if s.reached_destination || s.crashed then s
  else
    let s1 := Car.integrate O cb e tc others s
    if Car.checkCollision O e others s1 then
      { s1 with crashed := true, speed := 0 }
    else
      let s2 :=
        if Car.checkDestination O s1 then
          { s1 with reached_destination := true, speed := 0 }
        else s1
      Car.signalStep O e tc.current_phase s2

/-- `TrafficControl.update_traffic_stats(cars)`: cars farther than 200 from
the intersection are skipped; the rest are classified into a lane by
heading cosine and position sign, counted, and their normalised speeds
summed; a lane's average is total/count, or the default 1.0 when the lane
is empty. -/
def TrafficControl.update_traffic_stats (O : MathOracle)
    (tc : TrafficControl) (cars : List CarState) : TrafficControl :=
  let p := cars.foldl
    (fun (p : (Fin 4 → ℚ) × (Fin 4 → ℚ)) c =>
      let dx := tc.intersection_pos.1 - c.x
      let dy := tc.intersection_pos.2 - c.y
      let distance := O.sqrtQ (dx ^ 2 + dy ^ 2)
      if 200 < distance then p
      else
        let lane : Fin 4 :=
          if |O.cosD c.angle| < 1/2 then
            (if c.y < tc.intersection_pos.2 then 0 else 1)
          else
            (if tc.intersection_pos.1 < c.x then 2 else 3)
        (Function.update p.1 lane (p.1 lane + 1),
         Function.update p.2 lane (p.2 lane + c.speed / maxSpeed)))
    (fun _ => 0, fun _ => 0)
  { tc with
    avg_speed_per_lane := fun i => if 0 < p.1 i then p.2 i / p.1 i else 1
    cars_per_lane := p.1 }

/-!  ## Helper lemmas  -/

lemma qmod_eq_self {a : ℚ} (h0 : 0 ≤ a) (h1 : a < 360) : qmod a 360 = a := by
  unfold qmod
  have hz : ⌊a / 360⌋ = 0 := by
    rw [Int.floor_eq_zero_iff]
    constructor
    · positivity
    · rw [div_lt_one (by norm_num)]
      exact h1
  rw [hz]
  push_cast
  ring

lemma qmod_add_int_mul (a : ℚ) (k : ℤ) :
    qmod (a + 360 * (k : ℚ)) 360 = qmod a 360 := by
  unfold qmod
  have h : (a + 360 * (k : ℚ)) / 360 = a / 360 + (k : ℚ) := by
    field_simp
    ring
  rw [h, Int.floor_add_int]
  push_cast
  ring

lemma clampSpeed_bounds (v : ℚ) :
    -maxSpeed / 2 ≤ clampSpeed v ∧ clampSpeed v ≤ maxSpeed := by
  unfold clampSpeed maxSpeed
  constructor
  · exact le_max_left _ _
  · exact max_le (by norm_num) (min_le_left _ _)

lemma snapSpeed_of_clamp (v : ℚ) :
    (-maxSpeed / 2 ≤ snapSpeed (clampSpeed v) ∧
     snapSpeed (clampSpeed v) ≤ maxSpeed) ∧
    1/2 ≤ |snapSpeed (clampSpeed v)| := by
  obtain ⟨hlo, hhi⟩ := clampSpeed_bounds v
  unfold snapSpeed
  unfold maxSpeed at hlo hhi ⊢
  split_ifs with habs hpos
  · refine ⟨⟨by norm_num, by norm_num⟩, ?_⟩
    rw [abs_of_nonneg (by norm_num : (0:ℚ) ≤ 1/2)]
  · refine ⟨⟨by norm_num, by norm_num⟩, ?_⟩
    rw [abs_of_nonpos (by norm_num : -(1/2 : ℚ) ≤ 0)]
    norm_num
  · refine ⟨⟨hlo, hhi⟩, ?_⟩
    linarith [abs_nonneg (clampSpeed v)]

lemma Car.integrate_speed (O : MathOracle) (cb : List ℚ → ℚ × ℚ)
    (e : Environment) (tc : TrafficControl) (others : List CarState)
    (s : CarState) :
    ∃ v, (Car.integrate O cb e tc others s).speed =
      snapSpeed (clampSpeed v) := by
  exact ⟨_, rfl⟩

lemma Car.integrate_flags (O : MathOracle) (cb : List ℚ → ℚ × ℚ)
    (e : Environment) (tc : TrafficControl) (others : List CarState)
    (s : CarState) :
    (Car.integrate O cb e tc others s).crashed = s.crashed ∧
    (Car.integrate O cb e tc others s).reached_destination =
      s.reached_destination ∧
    (Car.integrate O cb e tc others s).destination = s.destination := by
  unfold Car.integrate Car.stuckStep
  dsimp only
  split_ifs <;> exact ⟨rfl, rfl, rfl⟩

/-!  ## Claim C2  -/

/-- Claim C2: once an agent's `crashed` flag or its `reached_destination`
flag is true, `Car.update` leaves its position, heading and speed (indeed
its whole state) unchanged — the update body returns before any mutation. -/
theorem car_update_terminal_frozen (O : MathOracle) (cb : List ℚ → ℚ × ℚ)
    (e : Environment) (tc : TrafficControl) (others : List CarState)
    (s : CarState) (h : s.crashed = true ∨ s.reached_destination = true) :
    (Car.update O cb e tc others s).x = s.x ∧
    (Car.update O cb e tc others s).y = s.y ∧
    (Car.update O cb e tc others s).angle = s.angle ∧
    (Car.update O cb e tc others s).speed = s.speed := by
  have hguard : (s.reached_destination || s.crashed) = true := by
    rcases h with h | h <;> simp [h]
  unfold Car.update
  rw [if_pos hguard]
  exact ⟨rfl, rfl, rfl, rfl⟩

/-- Witness for C2 at a concrete crashed agent. -/
theorem car_update_terminal_frozen_witness :
    ((Car.init 50 400 0 (950, 400)).crashed = true ∨
     { Car.init 50 400 0 (950, 400) with crashed := true }.crashed = true) ∧
    (Car.update ⟨fun _ => 0, fun _ => 0, fun _ => 0, fun _ _ => 0⟩
        (fun _ => (0, 0)) env1000 (TrafficControl.init env1000 0) []
        { Car.init 50 400 0 (950, 400) with crashed := true }).x =
      { Car.init 50 400 0 (950, 400) with crashed := true }.x := by
  refine ⟨Or.inr rfl, ?_⟩
  exact (car_update_terminal_frozen ⟨fun _ => 0, fun _ => 0, fun _ => 0,
    fun _ _ => 0⟩ (fun _ => (0, 0)) env1000 (TrafficControl.init env1000 0) []
    { Car.init 50 400 0 (950, 400) with crashed := true } (Or.inl rfl)).1


/-- Shape of `Car.update` on a live agent, for case analysis. -/
lemma Car.update_live_eq (O : MathOracle) (cb : List ℚ → ℚ × ℚ)
    (e : Environment) (tc : TrafficControl) (others : List CarState)
    (s : CarState) (ha : s.reached_destination = false)
    (hc : s.crashed = false) :
    Car.update O cb e tc others s =
      (if Car.checkCollision O e others (Car.integrate O cb e tc others s) then
        { Car.integrate O cb e tc others s with crashed := true, speed := 0 }
      else
        Car.signalStep O e tc.current_phase
          (if Car.checkDestination O (Car.integrate O cb e tc others s) then
            { Car.integrate O cb e tc others s with
              reached_destination := true, speed := 0 }
          else Car.integrate O cb e tc others s)) := by
  unfold Car.update
  rw [ha, hc]
  rfl

/-- `Car.signalStep` only touches the speed, and the new speed is either the
old one or `max (1/2) (speed - 1/2)`. -/
lemma Car.signalStep_shape (O : MathOracle) (e : Environment) (phase : Fin 4)
    (s2 : CarState) :
    (Car.signalStep O e phase s2).crashed = s2.crashed ∧
    (Car.signalStep O e phase s2).reached_destination =
      s2.reached_destination ∧
    ((Car.signalStep O e phase s2).speed = s2.speed ∨
     (Car.signalStep O e phase s2).speed = max (1/2) (s2.speed - 1/2)) := by
  unfold Car.signalStep
  split_ifs
  · exact ⟨rfl, rfl, Or.inr rfl⟩
  · exact ⟨rfl, rfl, Or.inl rfl⟩

/-!  ## Claim C3  -/

/-- Claim C3: after an update step of a live (non-terminal) agent, its speed
lies in `[-max_speed/2, max_speed]`, and `|speed| ≥ 0.5` unless the step
ended with `crashed` or `reached_destination` set (in which case the speed
is 0, inside the bounds).  Together with C2 (terminal states are frozen)
this is the claimed invariant for every agent that has taken at least one
update step. -/
theorem car_update_speed_bounds (O : MathOracle) (cb : List ℚ → ℚ × ℚ)
    (e : Environment) (tc : TrafficControl) (others : List CarState)
    (s : CarState) (hc : s.crashed = false)
    (ha : s.reached_destination = false) :
    (-maxSpeed / 2 ≤ (Car.update O cb e tc others s).speed ∧
     (Car.update O cb e tc others s).speed ≤ maxSpeed) ∧
    ((Car.update O cb e tc others s).crashed = true ∨
     (Car.update O cb e tc others s).reached_destination = true ∨
     1/2 ≤ |(Car.update O cb e tc others s).speed|) := by
  obtain ⟨v, hv⟩ := Car.integrate_speed O cb e tc others s
  have hb := snapSpeed_of_clamp v
  rw [← hv] at hb
  obtain ⟨⟨hlo, hhi⟩, habs⟩ := hb
  rw [Car.update_live_eq O cb e tc others s ha hc]
  by_cases hcol :
      Car.checkCollision O e others (Car.integrate O cb e tc others s) = true
  · rw [if_pos hcol]
    refine ⟨⟨?_, ?_⟩, Or.inl rfl⟩ <;> dsimp only <;> unfold maxSpeed <;>
      norm_num
  · rw [if_neg hcol]
    by_cases hdest :
        Car.checkDestination O (Car.integrate O cb e tc others s) = true
    · rw [if_pos hdest]
      obtain ⟨hsc, hsr, hss⟩ := Car.signalStep_shape O e tc.current_phase
        { Car.integrate O cb e tc others s with
          reached_destination := true, speed := 0 }
      refine ⟨?_, Or.inr (Or.inl (by rw [hsr]))⟩
      rcases hss with hss | hss <;> rw [hss] <;> dsimp only <;>
        unfold maxSpeed <;> constructor
      · norm_num
      · norm_num
      · refine le_trans (by norm_num) (le_max_left _ _)
      · refine max_le (by norm_num) (by norm_num)
    · rw [if_neg hdest]
      obtain ⟨hsc, hsr, hss⟩ := Car.signalStep_shape O e tc.current_phase
        (Car.integrate O cb e tc others s)
      rcases hss with hss | hss
      · rw [hsc, hsr, hss]
        rcases Car.integrate_flags O cb e tc others s with ⟨hfc, hfr, _⟩
        exact ⟨⟨hlo, hhi⟩, Or.inr (Or.inr habs)⟩
      · rw [hss]
        have hm : (1:ℚ)/2 ≤ max (1/2)
            ((Car.integrate O cb e tc others s).speed - 1/2) :=
          le_max_left _ _
        refine ⟨⟨?_, ?_⟩, Or.inr (Or.inr ?_)⟩
        · unfold maxSpeed
          linarith
        · refine max_le ?_ ?_
          · unfold maxSpeed
            norm_num
          · unfold maxSpeed at hhi ⊢
            linarith
        · rw [abs_of_nonneg (by linarith)]
          exact hm

/-- Witness for C3 at a concrete live agent. -/
theorem car_update_speed_bounds_witness :
    (Car.init 50 400 0 (950, 400)).crashed = false ∧
    (Car.init 50 400 0 (950, 400)).reached_destination = false ∧
    ((-maxSpeed / 2 ≤ (Car.update ⟨fun _ => 0, fun _ => 0, fun _ => 0,
        fun _ _ => 0⟩ (fun _ => (0, 0)) env1000
        (TrafficControl.init env1000 0) [] (Car.init 50 400 0 (950, 400))).speed ∧
      (Car.update ⟨fun _ => 0, fun _ => 0, fun _ => 0, fun _ _ => 0⟩
        (fun _ => (0, 0)) env1000 (TrafficControl.init env1000 0) []
        (Car.init 50 400 0 (950, 400))).speed ≤ maxSpeed) ∧
     ((Car.update ⟨fun _ => 0, fun _ => 0, fun _ => 0, fun _ _ => 0⟩
        (fun _ => (0, 0)) env1000 (TrafficControl.init env1000 0) []
        (Car.init 50 400 0 (950, 400))).crashed = true ∨
      (Car.update ⟨fun _ => 0, fun _ => 0, fun _ => 0, fun _ _ => 0⟩
        (fun _ => (0, 0)) env1000 (TrafficControl.init env1000 0) []
        (Car.init 50 400 0 (950, 400))).reached_destination = true ∨
      1/2 ≤ |(Car.update ⟨fun _ => 0, fun _ => 0, fun _ => 0, fun _ _ => 0⟩
        (fun _ => (0, 0)) env1000 (TrafficControl.init env1000 0) []
        (Car.init 50 400 0 (950, 400))).speed|)) :=
  ⟨rfl, rfl, car_update_speed_bounds ⟨fun _ => 0, fun _ => 0, fun _ => 0,
    fun _ _ => 0⟩ (fun _ => (0, 0)) env1000 (TrafficControl.init env1000 0)
    [] (Car.init 50 400 0 (950, 400)) rfl rfl⟩

/-!  ## Claim C9  -/

/-- Claim C9: no agent is ever simultaneously crashed and arrived.  Both
flags start `false` at construction, terminal agents are not mutated, and
within one update the collision branch returns before the arrival check,
so `Car.update` preserves "not both flags set" — hence every reachable
agent state has at most one of the two flags. -/
theorem car_flags_mutually_exclusive :
    (∀ x y angle dest, (Car.init x y angle dest).crashed = false ∧
      (Car.init x y angle dest).reached_destination = false) ∧
    (∀ (O : MathOracle) (cb : List ℚ → ℚ × ℚ) (e : Environment)
       (tc : TrafficControl) (others : List CarState) (s : CarState),
      ¬(s.crashed = true ∧ s.reached_destination = true) →
      ¬((Car.update O cb e tc others s).crashed = true ∧
        (Car.update O cb e tc others s).reached_destination = true)) := by
  constructor
  · intro x y angle dest
    exact ⟨rfl, rfl⟩
  · intro O cb e tc others s h
    by_cases hterm : (s.reached_destination || s.crashed) = true
    · unfold Car.update
      rw [hterm]
      exact h
    · simp only [Bool.or_eq_true, not_or, Bool.not_eq_true] at hterm
      obtain ⟨hr, hc⟩ := hterm
      obtain ⟨hfc, hfr, _⟩ := Car.integrate_flags O cb e tc others s
      rw [Car.update_live_eq O cb e tc others s hr hc]
      by_cases hcol :
          Car.checkCollision O e others (Car.integrate O cb e tc others s) = true
      · rw [if_pos hcol]
        intro hx
        have : (Car.integrate O cb e tc others s).reached_destination = true :=
          hx.2
        rw [hfr, hr] at this
        exact absurd this (by simp)
      · rw [if_neg hcol]
        by_cases hdest :
            Car.checkDestination O (Car.integrate O cb e tc others s) = true
        · rw [if_pos hdest]
          obtain ⟨hsc, hsr, _⟩ := Car.signalStep_shape O e tc.current_phase
            { Car.integrate O cb e tc others s with
              reached_destination := true, speed := 0 }
          intro hx
          have : (Car.integrate O cb e tc others s).crashed = true := by
            have h2 := hx.1
            rw [hsc] at h2
            exact h2
          rw [hfc, hc] at this
          exact absurd this (by simp)
        · rw [if_neg hdest]
          obtain ⟨hsc, hsr, _⟩ := Car.signalStep_shape O e tc.current_phase
            (Car.integrate O cb e tc others s)
          intro hx
          have h2 := hx.2
          rw [hsr, hfr, hr] at h2
          exact absurd h2 (by simp)

/-- Witness for C9 at a concrete agent with neither flag set. -/
theorem car_flags_mutually_exclusive_witness :
    ¬((Car.init 485 10 90 (470, 790)).crashed = true ∧
      (Car.init 485 10 90 (470, 790)).reached_destination = true) ∧
    ¬((Car.update ⟨fun _ => 0, fun _ => 0, fun _ => 0, fun _ _ => 0⟩
        (fun _ => (0, 0)) env1000 (TrafficControl.init env1000 0) []
        (Car.init 485 10 90 (470, 790))).crashed = true ∧
      (Car.update ⟨fun _ => 0, fun _ => 0, fun _ => 0, fun _ _ => 0⟩
        (fun _ => (0, 0)) env1000 (TrafficControl.init env1000 0) []
        (Car.init 485 10 90 (470, 790))).reached_destination = true) :=
  ⟨by simp [Car.init], car_flags_mutually_exclusive.2
    ⟨fun _ => 0, fun _ => 0, fun _ => 0, fun _ _ => 0⟩ (fun _ => (0, 0))
    env1000 (TrafficControl.init env1000 0) [] (Car.init 485 10 90 (470, 790))
    (by simp [Car.init])⟩

/-- Wait accrual does not touch the phase. -/
lemma TrafficControl.accrueWait_phase (tc1 : TrafficControl) :
    tc1.accrueWait.current_phase = tc1.current_phase := rfl

/-- Wait accrual does not touch the change timestamp. -/
lemma TrafficControl.accrueWait_last (tc1 : TrafficControl) :
    tc1.accrueWait.last_phase_change = tc1.last_phase_change := rfl

/-!  ## Claim C4  -/

/-- Claim C4: the controller's phase changes are rate-limited.  On any
`TrafficControl.update`, if the phase after the update differs from the
phase before it then at least `min_phase_duration` had elapsed since
`last_phase_change` and the timestamp was set to the current time; and if
the phase did not change, the timestamp is untouched.  (Since `update` is
the only writer of `current_phase` and `last_phase_change`, two committed
changes are always at least `min_phase_duration` apart.) -/
theorem tc_update_rate_limited (tc : TrafficControl) (t : ℚ)
    (brain : List ℚ → Fin 4) :
    ((TrafficControl.update tc t brain).current_phase ≠ tc.current_phase →
      tc.min_phase_duration ≤ t - tc.last_phase_change ∧
      (TrafficControl.update tc t brain).last_phase_change = t) ∧
    ((TrafficControl.update tc t brain).current_phase = tc.current_phase →
      (TrafficControl.update tc t brain).last_phase_change =
        tc.last_phase_change) := by
  unfold TrafficControl.update
  rw [TrafficControl.accrueWait_phase, TrafficControl.accrueWait_last]
  unfold TrafficControl.phaseStep
  by_cases htime : tc.min_phase_duration ≤ t - tc.last_phase_change
  · rw [if_pos htime]
    dsimp only
    by_cases hnp : brain (((List.finRange 4).map (fun i =>
        [tc.cars_per_lane i / 10, tc.avg_speed_per_lane i,
         tc.wait_time_per_lane i / 30])).flatten) ≠ tc.current_phase
    · rw [if_pos hnp]
      constructor
      · intro _
        exact ⟨htime, rfl⟩
      · intro heq
        exact absurd heq hnp
    · rw [if_neg hnp]
      exact ⟨fun hne => absurd rfl hne, fun _ => rfl⟩
  · rw [if_neg htime]
    exact ⟨fun hne => absurd rfl hne, fun _ => rfl⟩

/-- Witness for C4: a concrete update that commits a phase change 7 seconds
after construction (`min_phase_duration = 5`). -/
theorem tc_update_rate_limited_witness :
    (TrafficControl.update (TrafficControl.init env1000 0) 7
        (fun _ => 1)).current_phase ≠
      (TrafficControl.init env1000 0).current_phase ∧
    ((TrafficControl.init env1000 0).min_phase_duration ≤
      7 - (TrafficControl.init env1000 0).last_phase_change ∧
     (TrafficControl.update (TrafficControl.init env1000 0) 7
        (fun _ => 1)).last_phase_change = 7) :=
  ⟨by decide, (tc_update_rate_limited (TrafficControl.init env1000 0) 7
    (fun _ => 1)).1 (by decide)⟩

/-!  ## Claim C6  -/

/-- Counterexample to C6 as stated: immediately after construction every
lane is empty (`cars_per_lane = [0,0,0,0]`) yet `avg_speed_per_lane` is
initialised to `[0,0,0,0]`, so an empty lane reports 0, not 1.0. -/
theorem tc_init_empty_lane_reports_zero :
    (TrafficControl.init env1000 0).cars_per_lane 0 = 0 ∧
    (TrafficControl.init env1000 0).avg_speed_per_lane 0 ≠ 1 := by
  exact ⟨rfl, by decide⟩

/-- Claim C6 (amended): after any `update_traffic_stats` call, a lane with
zero counted vehicles reports average normalised speed exactly 1.0 (and
the rational embedding has no NaN to produce); at construction, before the
first refresh, the reported value is 0 instead. -/
theorem stats_empty_lane_avg_one (O : MathOracle) (tc : TrafficControl)
    (cars : List CarState) (i : Fin 4)
    (h : (TrafficControl.update_traffic_stats O tc cars).cars_per_lane i = 0) :
    (TrafficControl.update_traffic_stats O tc cars).avg_speed_per_lane i
      = 1 := by
  unfold TrafficControl.update_traffic_stats at h ⊢
  dsimp only at h ⊢
  rw [h]
  norm_num

/-- Witness for the amended C6 at a concrete empty-lane refresh. -/
theorem stats_empty_lane_avg_one_witness :
    (TrafficControl.update_traffic_stats
      ⟨fun _ => 0, fun _ => 0, fun _ => 0, fun _ _ => 0⟩
      (TrafficControl.init env1000 0) []).cars_per_lane 0 = 0 ∧
    (TrafficControl.update_traffic_stats
      ⟨fun _ => 0, fun _ => 0, fun _ => 0, fun _ _ => 0⟩
      (TrafficControl.init env1000 0) []).avg_speed_per_lane 0 = 1 :=
  ⟨by decide, stats_empty_lane_avg_one
    ⟨fun _ => 0, fun _ => 0, fun _ => 0, fun _ _ => 0⟩
    (TrafficControl.init env1000 0) [] 0 (by decide)⟩

/-!  ## Main loop (`main.py`) and Claim C1  -/

/-- The phase decision never touches the traffic statistics. -/
lemma TrafficControl.phaseStep_stats (tc : TrafficControl) (t : ℚ)
    (brain : List ℚ → Fin 4) :
    (tc.phaseStep t brain).cars_per_lane = tc.cars_per_lane ∧
    (tc.phaseStep t brain).avg_speed_per_lane = tc.avg_speed_per_lane := by
  unfold TrafficControl.phaseStep
  dsimp only
  split_ifs <;> exact ⟨rfl, rfl⟩

/-- `TrafficControl.update` never touches the traffic statistics: only
`update_traffic_stats` writes them, and `main.py` never calls it. -/
lemma TrafficControl.update_stats_const (tc : TrafficControl) (t : ℚ)
    (brain : List ℚ → Fin 4) :
    (TrafficControl.update tc t brain).cars_per_lane = tc.cars_per_lane ∧
    (TrafficControl.update tc t brain).avg_speed_per_lane =
      tc.avg_speed_per_lane := by
  unfold TrafficControl.update
  have h1 : (tc.phaseStep t brain).accrueWait.cars_per_lane =
      (tc.phaseStep t brain).cars_per_lane := rfl
  have h2 : (tc.phaseStep t brain).accrueWait.avg_speed_per_lane =
      (tc.phaseStep t brain).avg_speed_per_lane := rfl
  rw [h1, h2]
  exact TrafficControl.phaseStep_stats tc t brain

/-- The sequential per-car update pass of `main.py` lines 75–78:
`for i, car in enumerate(cars): car.update(cars)`.  The Python loop passes
the live, partially-updated list and `Car` skips itself by object
identity; here the already-updated prefix (`done`) and the not-yet-updated
suffix (`rest`) are passed with the car itself removed. -/
def stepCarsGo (O : MathOracle) (cb : List ℚ → ℚ × ℚ) (e : Environment)
    (tc : TrafficControl) : List CarState → List CarState → List CarState
  | done, [] => done
  | done, c :: rest =>
    stepCarsGo O cb e tc (done ++ [Car.update O cb e tc (done ++ rest) c]) rest

/-- The per-car update pass starting from an empty updated prefix. -/
def stepCars (O : MathOracle) (cb : List ℚ → ℚ × ℚ) (e : Environment)
    (tc : TrafficControl) (cars : List CarState) : List CarState :=
  stepCarsGo O cb e tc [] cars

/-- The mutable state of the `main.py` simulation loop. -/
structure World where
  cars : List CarState
  tc : TrafficControl
  frame_count : ℕ

/-- One iteration of the `main.py` loop body (lines 64–86), skipping the
rendering and event handling: bump the frame counter, spawn a car every
300 frames while fewer than 15 exist (`spawnCar` stands for the
randomly-initialised `Car(...)`), run `traffic_controller.update()`, then
update every car against the live list, and finally remove the cars that
reached their destination.  Note that `update_traffic_stats` is nowhere in
the loop. -/
def simTick (O : MathOracle) (cb : List ℚ → ℚ × ℚ) (tcb : List ℚ → Fin 4)
    (e : Environment) (spawnCar : CarState) (w : World) (t : ℚ) : World :=
  let fc := w.frame_count + 1
  let cars0 :=
    if fc % 300 = 0 ∧ w.cars.length < 15 then w.cars ++ [spawnCar]
    else w.cars
  let tc1 := TrafficControl.update w.tc t tcb
  let cars1 := stepCars O cb e tc1 cars0
  { cars := cars1.filter (fun c => ! c.reached_destination), tc := tc1,
    frame_count := fc }

/-- Oracle for the C1 scenario; its values agree with the real library
functions at every probed point: `cos (radians 90) = 0` and
`sqrt 10000 = 100`. -/
def mainTickOracle : MathOracle :=
  ⟨fun a => if a = 90 then 0 else 1, fun _ => 0,
   fun q => if q = 10000 then 100 else 0, fun _ _ => 0⟩

/-- The C1 scenario: the initial controller and a single car 100 px north
of the intersection, heading south into it. -/
def mainTickWorld : World :=
  { cars := [Car.init 500 300 90 (470, 790)],
    tc := TrafficControl.init env1000 0, frame_count := 0 }

/-- Claim C1 is violated by the code: the main loop never calls
`update_traffic_stats`, so a full simulation tick leaves the controller's
per-lane statistics untouched (they stay at the all-zero initial values)
even with an agent right next to the intersection — while a statistics
refresh on the same agents would count that agent in the north lane.  The
controller's phase decision therefore never sees recomputed statistics. -/
theorem main_loop_never_refreshes_stats :
    (simTick mainTickOracle (fun _ => (0, 0)) (fun _ => 0) env1000
        (Car.init 500 300 90 (470, 790)) mainTickWorld 1).tc.cars_per_lane =
      mainTickWorld.tc.cars_per_lane ∧
    (simTick mainTickOracle (fun _ => (0, 0)) (fun _ => 0) env1000
        (Car.init 500 300 90 (470, 790)) mainTickWorld 1).tc.avg_speed_per_lane =
      mainTickWorld.tc.avg_speed_per_lane ∧
    mainTickWorld.tc.cars_per_lane 0 = 0 ∧
    (TrafficControl.update_traffic_stats mainTickOracle mainTickWorld.tc
      mainTickWorld.cars).cars_per_lane 0 = 1 := by
  have h : (simTick mainTickOracle (fun _ => (0, 0)) (fun _ => 0) env1000
      (Car.init 500 300 90 (470, 790)) mainTickWorld 1).tc =
      TrafficControl.update mainTickWorld.tc 1 (fun _ => 0) := rfl
  refine ⟨?_, ?_, rfl, ?_⟩
  · rw [h]
    exact (TrafficControl.update_stats_const mainTickWorld.tc 1
      (fun _ => 0)).1
  · rw [h]
    exact (TrafficControl.update_stats_const mainTickWorld.tc 1
      (fun _ => 0)).2
  · decide

/-!  ## Claim C5  -/

/-- Oracle for the C5 counterexample; its values agree with the real
library functions at every probed point: `cos (radians 90) = 0`,
`cos (radians 450) = 0`, `sqrt 8100 = 90`, `sqrt 2500 = 50`. -/
def c5Oracle : MathOracle :=
  ⟨fun a => if a = 90 ∨ a = 450 then 0 else 1, fun _ => 0,
   fun q => if q = 8100 then 90 else if q = 2500 then 50 else 0,
   fun _ _ => 0⟩

/-- Counterexample to C5 as stated: the agent-side query uses proximity
radius 80 (the controller uses 100) and reduces the heading modulo 360
(the controller tests the raw heading).  At (500, 310), heading 90°,
phase 1, the agent says "don't stop" (distance 90 > 80) while the
controller says "stop" (90 ≤ 100); at (500, 350), heading 450°, phase 1,
the agent says "stop" (450 mod 360 = 90 is approaching) while the
controller says "don't stop" (450 fails every raw-angle approach test). -/
theorem car_should_stop_differs_from_controller :
    Car.shouldStopForSignal c5Oracle env1000
        { TrafficControl.init env1000 0 with current_phase := 1 }.current_phase
        500 310 90 ≠
      TrafficControl.should_stop c5Oracle
        { TrafficControl.init env1000 0 with current_phase := 1 } 500 310 90 ∧
    Car.shouldStopForSignal c5Oracle env1000
        { TrafficControl.init env1000 0 with current_phase := 1 }.current_phase
        500 350 450 ≠
      TrafficControl.should_stop c5Oracle
        { TrafficControl.init env1000 0 with current_phase := 1 } 500 350 450 := by
  constructor <;> decide

/-- Claim C5 (amended): the agent's signal-compliance query implements the
same lane/approach/phase logic as the controller's `should_stop`, but with
proximity radius 80 instead of 100 and with the heading reduced modulo 360
in the approach test.  For an agent whose computed distance to the
intersection centre is at most 80 and whose heading lies in [0, 360), the
two decisions coincide for every phase. -/
theorem car_should_stop_agrees_with_controller (O : MathOracle)
    (e : Environment) (tc : TrafficControl) (x y angle : ℚ)
    (hint : tc.intersection_pos = e.intersection) (h0 : 0 ≤ angle)
    (h1 : angle < 360)
    (hd : O.sqrtQ ((e.intersection.1 - x) ^ 2 + (e.intersection.2 - y) ^ 2)
      ≤ 80) :
    Car.shouldStopForSignal O e tc.current_phase x y angle =
      TrafficControl.should_stop O tc x y angle := by
  unfold Car.shouldStopForSignal TrafficControl.should_stop
  rw [hint]
  dsimp only
  rw [qmod_eq_self h0 h1]
  rw [if_neg (not_lt.mpr hd),
    if_neg (not_lt.mpr (le_trans hd (by norm_num)))]

/-- Witness for the amended C5 at a concrete near-intersection agent. -/
theorem car_should_stop_agrees_with_controller_witness :
    { TrafficControl.init env1000 0 with
        current_phase := (1 : Fin 4) }.intersection_pos =
      env1000.intersection ∧
    (0 : ℚ) ≤ 90 ∧ (90 : ℚ) < 360 ∧
    c5Oracle.sqrtQ ((env1000.intersection.1 - 500) ^ 2 +
      (env1000.intersection.2 - 350) ^ 2) ≤ 80 ∧
    Car.shouldStopForSignal c5Oracle env1000
        { TrafficControl.init env1000 0 with
            current_phase := (1 : Fin 4) }.current_phase 500 350 90 =
      TrafficControl.should_stop c5Oracle
        { TrafficControl.init env1000 0 with current_phase := (1 : Fin 4) }
        500 350 90 :=
  ⟨by decide, by norm_num, by norm_num, by decide,
   car_should_stop_agrees_with_controller c5Oracle env1000
     { TrafficControl.init env1000 0 with current_phase := (1 : Fin 4) }
     500 350 90 (by decide) (by norm_num) (by norm_num) (by decide)⟩

/-!  ## Claim C10  -/

/-- Claim C10: the agent's signal-compliance decision is invariant under
adding whole turns to the heading, provided the cosine oracle has the
period-360 property of the real `cos (radians -)`.  The distance test does
not involve the heading, the orientation test applies the cosine (which is
periodic), and the approach test reduces the heading modulo 360 first. -/
theorem car_should_stop_periodic (O : MathOracle) (e : Environment)
    (phase : Fin 4) (x y h : ℚ) (k : ℤ)
    (Hper : ∀ (a : ℚ) (m : ℤ), O.cosD (a + 360 * (m : ℚ)) = O.cosD a) :
    Car.shouldStopForSignal O e phase x y (h + 360 * (k : ℚ)) =
      Car.shouldStopForSignal O e phase x y h := by
  unfold Car.shouldStopForSignal
  dsimp only
  rw [Hper h k, qmod_add_int_mul h k]

/-- Oracle for the C10 witness, built to be 360-periodic. -/
def c10Oracle : MathOracle :=
  ⟨fun a => if qmod a 360 = 90 then 0 else 1, fun _ => 0,
   fun q => if q = 2500 then 50 else 0, fun _ _ => 0⟩

/-- The C10 witness oracle indeed has the period-360 property. -/
lemma c10Oracle_periodic :
    ∀ (a : ℚ) (m : ℤ), c10Oracle.cosD (a + 360 * (m : ℚ)) = c10Oracle.cosD a := by
  intro a m
  show (if qmod (a + 360 * (m : ℚ)) 360 = 90 then (0:ℚ) else 1) =
    (if qmod a 360 = 90 then (0:ℚ) else 1)
  rw [qmod_add_int_mul a m]

/-- Witness for C10: one full extra turn at a concrete pose. -/
theorem car_should_stop_periodic_witness :
    (∀ (a : ℚ) (m : ℤ),
      c10Oracle.cosD (a + 360 * (m : ℚ)) = c10Oracle.cosD a) ∧
    Car.shouldStopForSignal c10Oracle env1000 1 500 350
        (90 + 360 * ((1 : ℤ) : ℚ)) =
      Car.shouldStopForSignal c10Oracle env1000 1 500 350 90 :=
  ⟨c10Oracle_periodic,
   car_should_stop_periodic c10Oracle env1000 1 500 350 90 1 c10Oracle_periodic⟩

/-!  ## Claim C7  -/

/-- Folding `min` over car distances never increases the accumulator. -/
lemma foldl_min_le_init (f : CarState → ℚ) :
    ∀ (l : List CarState) (acc : ℚ),
      l.foldl (fun m c => min m (f c)) acc ≤ acc := by
  intro l
  induction l with
  | nil => intro acc; exact le_refl acc
  | cons c rest ih =>
    intro acc
    exact le_trans (ih (min acc (f c))) (min_le_left _ _)

/-- Folding `min` keeps nonnegativity when every element is nonnegative. -/
lemma foldl_min_nonneg (f : CarState → ℚ) :
    ∀ (l : List CarState) (acc : ℚ), 0 ≤ acc → (∀ c ∈ l, 0 ≤ f c) →
      0 ≤ l.foldl (fun m c => min m (f c)) acc := by
  intro l
  induction l with
  | nil => intro acc hacc _; exact hacc
  | cons c rest ih =>
    intro acc hacc hall
    exact ih (min acc (f c)) (le_min hacc (hall c (List.mem_cons_self c rest)))
      (fun d hd => hall d (List.mem_cons_of_mem c hd))

/-- Folding `min` is the identity when no element goes below the start. -/
lemma foldl_min_eq_init (f : CarState → ℚ) :
    ∀ (l : List CarState) (acc : ℚ), (∀ c ∈ l, acc ≤ f c) →
      l.foldl (fun m c => min m (f c)) acc = acc := by
  intro l
  induction l with
  | nil => intro acc _; rfl
  | cons c rest ih =>
    intro acc hall
    have h1 : min acc (f c) = acc :=
      min_eq_left (hall c (List.mem_cons_self c rest))
    show List.foldl _ (min acc (f c)) rest = acc
    rw [h1]
    exact ih acc (fun d hd => hall d (List.mem_cons_of_mem c hd))

/-- The wall ray-cast over the sensor range returns a value in
`[0, sensor_range]`: either an offset `2·j` with `j < 75`, or the range. -/
lemma wall_distance_bounds (O : MathOracle) (e : Environment) (x y angle : ℚ) :
    0 ≤ e.get_wall_distance O x y angle sensorRange ∧
    e.get_wall_distance O x y angle sensorRange ≤ sensorRange := by
  unfold Environment.get_wall_distance sensorRange
  have hsteps : (((truncQ (150:ℚ)).toNat + 1) / 2) = 75 := by decide
  rw [hsteps]
  dsimp only
  cases hfind : (List.range' 0 75 2).find?
      (fun (i : ℕ) => ! e.isOnRoad (x + (i : ℚ) * O.cosD angle)
        (y + (i : ℚ) * O.sinD angle)) with
  | none => exact ⟨by norm_num, le_refl _⟩
  | some i =>
    have hmem : i ∈ List.range' 0 75 2 := List.mem_of_find?_eq_some hfind
    rw [List.mem_range'] at hmem
    obtain ⟨j, hj, rfl⟩ := hmem
    constructor
    · positivity
    · have : (0 + 2 * j : ℕ) ≤ 148 := by omega
      calc ((0 + 2 * j : ℕ) : ℚ) ≤ (148 : ℕ) := by exact_mod_cast this
        _ ≤ 150 := by norm_num

/-- A car farther than the sensor range reports `sensor_range` on every
ray. -/
lemma carDistance_far (O : MathOracle) (x y sensor_angle : ℚ) (c : CarState)
    (h : sensorRange < O.sqrtQ ((c.x - x) ^ 2 + (c.y - y) ^ 2)) :
    Car.carDistance O x y sensor_angle c = sensorRange := by
  unfold Car.carDistance
  dsimp only
  rw [if_neg]
  intro hcon
  exact absurd hcon.2 (not_le.mpr h)

/-- Claim C7: every normalised sensor reading of `_get_sensor_data` lies in
[0, 1] (given that the square-root oracle is nonnegative, as the real
`math.sqrt` is), and a ray whose wall cast is unobstructed over the whole
range, with every other agent farther than `sensor_range` from the agent
(hence farther than the range from the ray), reads exactly 1.0. -/
theorem sensor_readings_in_unit_interval (O : MathOracle) (e : Environment)
    (others : List CarState) (x y angle : ℚ)
    (Hs : ∀ q, 0 ≤ O.sqrtQ q) :
    (∀ r ∈ Car.sensorData O e others x y angle, 0 ≤ r ∧ r ≤ 1) ∧
    (∀ offset ∈ sensorOffsets,
      e.get_wall_distance O x y (angle + offset) sensorRange = sensorRange →
      (∀ c ∈ others,
        sensorRange < O.sqrtQ ((c.x - x) ^ 2 + (c.y - y) ^ 2)) →
      Car.sensorReading O e others x y angle offset = 1) := by
  constructor
  · intro r hr
    unfold Car.sensorData at hr
    obtain ⟨offset, _, rfl⟩ := List.mem_map.mp hr
    unfold Car.sensorReading
    dsimp only
    obtain ⟨hw0, hw1⟩ := wall_distance_bounds O e x y (angle + offset)
    have hacc0 : (0:ℚ) ≤ min sensorRange
        (e.get_wall_distance O x y (angle + offset) sensorRange) :=
      le_min (by norm_num [sensorRange]) hw0
    have hacc1 : min sensorRange
        (e.get_wall_distance O x y (angle + offset) sensorRange) ≤
        sensorRange := min_le_left _ _
    have hlow : 0 ≤ others.foldl
        (fun m c => min m (Car.carDistance O x y (angle + offset) c))
        (min sensorRange
          (e.get_wall_distance O x y (angle + offset) sensorRange)) := by
      refine foldl_min_nonneg _ others _ hacc0 ?_
      intro c _
      unfold Car.carDistance
      dsimp only
      split_ifs
      · exact Hs _
      · norm_num [sensorRange]
    have hhigh : others.foldl
        (fun m c => min m (Car.carDistance O x y (angle + offset) c))
        (min sensorRange
          (e.get_wall_distance O x y (angle + offset) sensorRange)) ≤
        sensorRange :=
      le_trans (foldl_min_le_init _ others _) hacc1
    constructor
    · exact div_nonneg hlow (by norm_num [sensorRange])
    · rw [div_le_one (by norm_num [sensorRange])]
      exact le_trans hhigh (by norm_num [sensorRange])
  · intro offset _ hwall hfar
    unfold Car.sensorReading
    dsimp only
    rw [hwall, min_self]
    rw [foldl_min_eq_init _ others sensorRange
      (fun c hc => le_of_eq (carDistance_far O x y (angle + offset) c
        (hfar c hc)).symm)]
    norm_num [sensorRange]

/-- Witness for C7: an agent at the intersection centre looking east along
the road; the straight-ahead ray is unobstructed over the full range and
reads exactly 1.0.  The oracle agrees with the real functions at the
probed points (`cos (radians 0) = 1`, `sin (radians 0) = 0`, and `sqrt` is
nonnegative). -/
theorem sensor_readings_in_unit_interval_witness :
    (∀ q, (0:ℚ) ≤ (MathOracle.mk (fun a => if a = 0 then 1 else 0)
      (fun _ => 0) (fun _ => 0) (fun _ _ => 0)).sqrtQ q) ∧
    (0 : ℚ) ∈ sensorOffsets ∧
    env1000.get_wall_distance (MathOracle.mk (fun a => if a = 0 then 1 else 0)
      (fun _ => 0) (fun _ => 0) (fun _ _ => 0)) 500 400 (0 + 0) sensorRange =
      sensorRange ∧
    Car.sensorReading (MathOracle.mk (fun a => if a = 0 then 1 else 0)
      (fun _ => 0) (fun _ => 0) (fun _ _ => 0)) env1000 [] 500 400 0 0 = 1 := by
  refine ⟨fun q => le_refl 0, by decide, by decide, ?_⟩
  exact (sensor_readings_in_unit_interval (MathOracle.mk
      (fun a => if a = 0 then 1 else 0) (fun _ => 0) (fun _ => 0)
      (fun _ _ => 0)) env1000 [] 500 400 0 (fun q => le_refl 0)).2 0
    (by decide) (by decide) (fun c hc => absurd hc (List.not_mem_nil c))

/-!  ## Claim C8  -/

/-- An agent farther than 80 from the intersection centre (as computed by
the square-root oracle) is never told to stop. -/
lemma shouldStop_false_of_far (O : MathOracle) (e : Environment)
    (phase : Fin 4) (x y angle : ℚ)
    (h : 80 < O.sqrtQ ((e.intersection.1 - x) ^ 2 +
      (e.intersection.2 - y) ^ 2)) :
    Car.shouldStopForSignal O e phase x y angle = false := by
  unfold Car.shouldStopForSignal
  dsimp only
  rw [if_pos h]

/-- A point within 50 of any of the five program destinations (the four
exit points of the 1000 × 800 environment, or the default destination) is
more than 80 from the intersection centre (500, 400): every destination is
at least 390 away from the centre. -/
lemma far_from_intersection_of_near_dest (dest : ℚ × ℚ) (x y : ℚ)
    (hdest : dest = (990, 385) ∨ dest = (10, 415) ∨ dest = (515, 10) ∨
      dest = (485, 790) ∨ dest = (950, 400))
    (hdd : (dest.1 - x) ^ 2 + (dest.2 - y) ^ 2 < 2500) :
    (6400:ℚ) < ((500:ℚ) - x) ^ 2 + ((400:ℚ) - y) ^ 2 := by
  rcases hdest with h1 | h2 | h3 | h4 | h5
  · have hdd' : ((990:ℚ) - x) ^ 2 + ((385:ℚ) - y) ^ 2 < 2500 := by
      rw [h1] at hdd
      exact hdd
    have e1 : ((990:ℚ) - x) ^ 2 < 2500 := by
      nlinarith [sq_nonneg ((385:ℚ) - y)]
    have e2 : (940:ℚ) < x := by
      nlinarith [sq_nonneg ((990:ℚ) - x - 50)]
    have e3 : (193600:ℚ) < ((500:ℚ) - x) ^ 2 := by
      nlinarith [sq_nonneg (x - 940)]
    nlinarith [sq_nonneg ((400:ℚ) - y)]
  · have hdd' : ((10:ℚ) - x) ^ 2 + ((415:ℚ) - y) ^ 2 < 2500 := by
      rw [h2] at hdd
      exact hdd
    have e1 : ((10:ℚ) - x) ^ 2 < 2500 := by
      nlinarith [sq_nonneg ((415:ℚ) - y)]
    have e2 : x < 60 := by
      nlinarith [sq_nonneg ((10:ℚ) - x + 50)]
    have e3 : (193600:ℚ) < ((500:ℚ) - x) ^ 2 := by
      nlinarith [sq_nonneg (60 - x)]
    nlinarith [sq_nonneg ((400:ℚ) - y)]
  · have hdd' : ((515:ℚ) - x) ^ 2 + ((10:ℚ) - y) ^ 2 < 2500 := by
      rw [h3] at hdd
      exact hdd
    have e1 : ((10:ℚ) - y) ^ 2 < 2500 := by
      nlinarith [sq_nonneg ((515:ℚ) - x)]
    have e2 : y < 60 := by
      nlinarith [sq_nonneg ((10:ℚ) - y + 50)]
    have e3 : (115600:ℚ) < ((400:ℚ) - y) ^ 2 := by
      nlinarith [sq_nonneg (60 - y)]
    nlinarith [sq_nonneg ((500:ℚ) - x)]
  · have hdd' : ((485:ℚ) - x) ^ 2 + ((790:ℚ) - y) ^ 2 < 2500 := by
      rw [h4] at hdd
      exact hdd
    have e1 : ((790:ℚ) - y) ^ 2 < 2500 := by
      nlinarith [sq_nonneg ((485:ℚ) - x)]
    have e2 : (740:ℚ) < y := by
      nlinarith [sq_nonneg ((790:ℚ) - y - 50)]
    have e3 : (115600:ℚ) < ((400:ℚ) - y) ^ 2 := by
      nlinarith [sq_nonneg (y - 740)]
    nlinarith [sq_nonneg ((500:ℚ) - x)]
  · have hdd' : ((950:ℚ) - x) ^ 2 + ((400:ℚ) - y) ^ 2 < 2500 := by
      rw [h5] at hdd
      exact hdd
    have e1 : ((950:ℚ) - x) ^ 2 < 2500 := by
      nlinarith [sq_nonneg ((400:ℚ) - y)]
    have e2 : (900:ℚ) < x := by
      nlinarith [sq_nonneg ((950:ℚ) - x - 50)]
    have e3 : (160000:ℚ) < ((500:ℚ) - x) ^ 2 := by
      nlinarith [sq_nonneg (x - 900)]
    nlinarith [sq_nonneg ((400:ℚ) - y)]

/-- Claim C8: on an update tick of a live agent of the simulation (its
destination is one of the four exit points, or the default `(950, 400)`)
in which the collision check fails and the arrival check succeeds, the
update ends with `reached_destination = true` and `speed = 0`.  The
square-root oracle only needs the two monotonicity facts `HA`/`HB`, both
true of the real `sqrt`; they force the agent to be within 50 of its
destination and hence — every program destination being at least 390 away
from the intersection centre — more than 80 from the intersection, so the
trailing signal-compliance step cannot raise the speed again. -/
theorem car_arrival_terminates (O : MathOracle) (cb : List ℚ → ℚ × ℚ)
    (tc : TrafficControl) (others : List CarState) (s : CarState)
    (hc : s.crashed = false) (ha : s.reached_destination = false)
    (hdest : s.destination ∈ env1000.exit_points ∨ s.destination = (950, 400))
    (HA : ∀ q, 2500 ≤ q → 50 ≤ O.sqrtQ q)
    (HB : ∀ q, 6400 < q → 80 < O.sqrtQ q)
    (hcol : Car.checkCollision O env1000 others
      (Car.integrate O cb env1000 tc others s) = false)
    (harr : Car.checkDestination O
      (Car.integrate O cb env1000 tc others s) = true) :
    (Car.update O cb env1000 tc others s).reached_destination = true ∧
    (Car.update O cb env1000 tc others s).speed = 0 := by
  rw [Car.update_live_eq O cb env1000 tc others s ha hc]
  set s1 := Car.integrate O cb env1000 tc others s with hs1
  have hdest1 : s1.destination = s.destination :=
    (Car.integrate_flags O cb env1000 tc others s).2.2
  have harr' : O.sqrtQ ((s1.destination.1 - s1.x) ^ 2 +
      (s1.destination.2 - s1.y) ^ 2) < 50 := by
    have h2 := harr
    unfold Car.checkDestination at h2
    dsimp only at h2
    exact of_decide_eq_true h2
  have hdd : (s.destination.1 - s1.x) ^ 2 + (s.destination.2 - s1.y) ^ 2
      < 2500 := by
    rw [hdest1] at harr'
    by_contra hge
    push_neg at hge
    exact absurd (HA _ hge) (not_le.mpr harr')
  have hexits : env1000.exit_points =
      [(990, 385), (10, 415), (515, 10), (485, 790)] := by decide
  have hdest5 : s.destination = (990, 385) ∨ s.destination = (10, 415) ∨
      s.destination = (515, 10) ∨ s.destination = (485, 790) ∨
      s.destination = (950, 400) := by
    rcases hdest with hmem | h5
    · rw [hexits] at hmem
      simp only [List.mem_cons, List.not_mem_nil, or_false] at hmem
      tauto
    · tauto
  have hdi := far_from_intersection_of_near_dest s.destination s1.x s1.y
    hdest5 hdd
  have hi1 : env1000.intersection.1 = 500 := by decide
  have hi2 : env1000.intersection.2 = 400 := by decide
  have hfar : 80 < O.sqrtQ ((env1000.intersection.1 - s1.x) ^ 2 +
      (env1000.intersection.2 - s1.y) ^ 2) := by
    refine HB _ ?_
    rw [hi1, hi2]
    exact hdi
  have hstop := shouldStop_false_of_far O env1000 tc.current_phase s1.x s1.y
    s1.angle hfar
  rw [if_neg (by simp [hcol])]
  rw [if_pos harr]
  unfold Car.signalStep
  have hstop2 : Car.shouldStopForSignal O env1000 tc.current_phase
      ({ s1 with reached_destination := true, speed := (0:ℚ) }).x
      ({ s1 with reached_destination := true, speed := (0:ℚ) }).y
      ({ s1 with reached_destination := true, speed := (0:ℚ) }).angle =
      false := hstop
  rw [if_neg (by simp [hstop2])]
  exact ⟨rfl, rfl⟩

/-- Oracle for the C8 witness.  `HA`/`HB` below hold for it, as they do
for the real `sqrt`, and `sqrt 900 = 0` is not needed exactly — only that
it is below 50, which the real `sqrt 900 = 30` also satisfies. -/
def c8Oracle : MathOracle :=
  ⟨fun _ => 0, fun _ => 0,
   fun q => if q < 2500 then 0 else if q ≤ 6400 then 50 else 81,
   fun _ _ => 0⟩

/-- The C8 witness oracle satisfies hypothesis `HA`. -/
lemma c8Oracle_HA : ∀ q, 2500 ≤ q → 50 ≤ c8Oracle.sqrtQ q := by
  intro q h
  show (50:ℚ) ≤ if q < 2500 then 0 else if q ≤ 6400 then 50 else 81
  rw [if_neg (not_lt.mpr h)]
  split_ifs
  · exact le_refl 50
  · norm_num

/-- The C8 witness oracle satisfies hypothesis `HB`. -/
lemma c8Oracle_HB : ∀ q, 6400 < q → 80 < c8Oracle.sqrtQ q := by
  intro q h
  show (80:ℚ) < if q < 2500 then 0 else if q ≤ 6400 then 50 else 81
  rw [if_neg (by linarith), if_neg (not_le.mpr h)]
  norm_num

set_option maxHeartbeats 1000000 in
/-- Witness for C8: an agent on the east road 30 px from the first exit
point, with zero oracles for the trigonometry (so the integration step
keeps it in place), arrives and ends the tick with speed 0. -/
theorem car_arrival_terminates_witness :
    (Car.init 960 385 0 (990, 385)).crashed = false ∧
    (Car.init 960 385 0 (990, 385)).reached_destination = false ∧
    ((Car.init 960 385 0 (990, 385)).destination ∈ env1000.exit_points ∨
      (Car.init 960 385 0 (990, 385)).destination = (950, 400)) ∧
    (∀ q, 2500 ≤ q → 50 ≤ c8Oracle.sqrtQ q) ∧
    (∀ q, 6400 < q → 80 < c8Oracle.sqrtQ q) ∧
    Car.checkCollision c8Oracle env1000 []
      (Car.integrate c8Oracle (fun _ => (0, 0)) env1000
        (TrafficControl.init env1000 0) [] (Car.init 960 385 0 (990, 385)))
      = false ∧
    Car.checkDestination c8Oracle
      (Car.integrate c8Oracle (fun _ => (0, 0)) env1000
        (TrafficControl.init env1000 0) [] (Car.init 960 385 0 (990, 385)))
      = true ∧
    ((Car.update c8Oracle (fun _ => (0, 0)) env1000
        (TrafficControl.init env1000 0) []
        (Car.init 960 385 0 (990, 385))).reached_destination = true ∧
     (Car.update c8Oracle (fun _ => (0, 0)) env1000
        (TrafficControl.init env1000 0) []
        (Car.init 960 385 0 (990, 385))).speed = 0) :=
  ⟨rfl, rfl, Or.inl (by decide), c8Oracle_HA, c8Oracle_HB, by decide,
   by decide,
   car_arrival_terminates c8Oracle (fun _ => (0, 0))
     (TrafficControl.init env1000 0) [] (Car.init 960 385 0 (990, 385))
     rfl rfl (Or.inl (by decide)) c8Oracle_HA c8Oracle_HB (by decide)
     (by decide)⟩
